import Mathlib

/-!
Verification of `src/pyacal/mathphys.py` (repository lnls-sirius/pyacal).

The module is a static table of floating-point constants organized in four
classes (`BaseUnits`, `Constants`, `DerivedUnits`, `Conversions`) plus one
function `beam_rigidity` that delegates to an external routine.

Modelling choices:
* Python `float` values are embedded as exact rationals (`ℚ`).  Every literal
  of the module is a decimal literal, hence an exact rational, and the claims
  under scrutiny are either exact formula checks or tolerance checks that the
  exact-arithmetic model settles well inside the stated tolerance.
* `numpy` is embedded by the two members the module uses: `np.pi` is the
  IEEE-754 binary64 value nearest to π (an exact rational), and `np.pow` at a
  natural-number exponent is exponentiation.
* Name resolution for `beam_rigidity` is embedded explicitly: the module's
  global namespace binds exactly the names created by its one import
  statement (`import numpy as _np`) and its four class statements.  The body
  of `beam_rigidity` looks up the free name `_beam` in that namespace and
  raises `NameError` when the lookup fails.
-/

namespace Pyacal

namespace Np

/-- The member `numpy.pi` as the module reads it: the IEEE-754 binary64
floating-point number nearest to π, which is the exact rational
884279719003555 / 2^48. -/
def pi : ℚ := 884279719003555 / 281474976710656

/-- The member `numpy.pow` applied at a natural-number exponent, as the module
uses it (`_np.pow(x, 2)`, `_np.pow(x, 3)`). -/
def pow (x : ℚ) (n : ℕ) : ℚ := x ^ n

end Np

namespace BaseUnits

def meter : ℚ := 1.0

def kilogram : ℚ := 1.0

def second : ℚ := 1.0

def ampere : ℚ := 1.0

def kelvin : ℚ := 1.0

def mole : ℚ := 1.0

def candela : ℚ := 1.0

end BaseUnits

namespace Constants

def _volt : ℚ := (BaseUnits.kilogram * BaseUnits.meter ^ 2) /
  (BaseUnits.ampere * BaseUnits.second ^ 2)

def _coulomb : ℚ := BaseUnits.second * BaseUnits.ampere

def _joule : ℚ := BaseUnits.kilogram * BaseUnits.meter ^ 2 / BaseUnits.second ^ 2

def light_speed : ℚ := 299792458 * (BaseUnits.meter / BaseUnits.second)

def gas_constant : ℚ := 8.314462618 * (_joule / BaseUnits.mole / BaseUnits.kelvin)

def boltzmann_constant : ℚ := 1.380649e-23 * (_joule / BaseUnits.kelvin)

def avogadro_constant : ℚ := 6.02214076e23 * (1 / BaseUnits.mole)

def elementary_charge : ℚ := 1.602176634e-19 * _coulomb

def reduced_planck_constant : ℚ := 1.054571817e-34 * (_joule * BaseUnits.second)

def electron_mass : ℚ := 9.1093837015e-31 * BaseUnits.kilogram

def vacuum_permeability : ℚ :=
  1.25663706212e-6 * (_volt * BaseUnits.second / BaseUnits.ampere / BaseUnits.meter)

def electron_rest_energy : ℚ := electron_mass * Np.pow light_speed 2

def vacuum_permitticity : ℚ := 1.0 / (vacuum_permeability * Np.pow light_speed 2)

def vacuum_impedance : ℚ := vacuum_permeability * light_speed

def electron_radius : ℚ := Np.pow elementary_charge 2 /
  (4 * Np.pi * vacuum_permitticity * electron_rest_energy)

def _joule_2_eV : ℚ := _joule / elementary_charge

def rad_cgamma : ℚ := 4 * Np.pi * electron_radius /
  Np.pow (electron_rest_energy / elementary_charge / 1.0e9) 3 / 3

/- `Cq` is omitted: it is the one constant whose formula uses `np.sqrt(3.0)`,
an irrational number, and no claim refers to it. -/

def Ca : ℚ := electron_radius * light_speed /
  (3 * Np.pow (electron_rest_energy * _joule_2_eV / 1.0e9) 3)

end Constants

namespace DerivedUnits

def newton : ℚ := BaseUnits.kilogram * BaseUnits.meter / BaseUnits.second

def coulomb : ℚ := BaseUnits.second * BaseUnits.ampere

def joule : ℚ := newton * BaseUnits.meter

def watt : ℚ := joule / BaseUnits.second

def volt : ℚ := watt / BaseUnits.ampere

def weber : ℚ := volt * BaseUnits.second

def tesla : ℚ := weber / BaseUnits.meter ^ 2

def pascal : ℚ := BaseUnits.kilogram / (BaseUnits.meter * BaseUnits.second ^ 2)

def radian : ℚ := BaseUnits.meter / BaseUnits.meter

def mA : ℚ := 1e-3

def uA : ℚ := 1e-6

def km : ℚ := 1e3

def cm : ℚ := 1e-2

def mm : ℚ := 1e-3

def um : ℚ := 1e-6

def nm : ℚ := 1e-9

def rad : ℚ := 1e0

def mrad : ℚ := 1e-3

def urad : ℚ := 1e-6

def nrad : ℚ := 1e-9

def minute : ℚ := 60

def hour : ℚ := 60 * 60

def day : ℚ := 24 * 60 * 60

def year : ℚ := 365.25 * 24 * 60 * 60

def electron_volt : ℚ := Constants.elementary_charge * volt

def eV : ℚ := electron_volt

def MeV : ℚ := electron_volt * 1e6

def GeV : ℚ := electron_volt * 1e9

end DerivedUnits

namespace Conversions

def radian_2_degree : ℚ := 180.0 / Np.pi

def degree_2_radian : ℚ := Np.pi / 180.0

def rad_2_mrad : ℚ := DerivedUnits.rad / DerivedUnits.mrad

def meter_2_mm : ℚ := BaseUnits.meter / DerivedUnits.mm

def joule_2_eV : ℚ := DerivedUnits.joule / DerivedUnits.electron_volt

def pascal_2_bar : ℚ := DerivedUnits.pascal * 1.0e-5

def eV_2_GeV : ℚ := DerivedUnits.eV / DerivedUnits.GeV

def joule_2_GeV : ℚ := joule_2_eV * eV_2_GeV

def ev_2_joule : ℚ := 1.0 / joule_2_eV

def GeV_2_eV : ℚ := 1.0 / eV_2_GeV

def mrad_2_rad : ℚ := 1.0 / rad_2_mrad

def mm_2_meter : ℚ := 1.0 / meter_2_mm

end Conversions

/-- A value bound to a name in the module's global namespace: an imported
module object, a class object created by a class statement, or a module
object exposing a `beam_rigidity` routine that maps an energy to the 5-tuple
the body of `Conversions.beam_rigidity` destructures. -/
inductive PyValue where
  | moduleObj : PyValue
  | classObj : PyValue
  | beamMod : (ℚ → ℚ × ℚ × ℚ × ℚ × ℚ) → PyValue

/-- The global names actually bound by `pyacal/mathphys.py`, in statement
order: the sole import statement `import numpy as _np` and the four class
statements.  No statement binds the name `_beam`. -/
def moduleGlobals : List (String × PyValue) :=
  [("_np", PyValue.moduleObj),
   ("BaseUnits", PyValue.classObj),
   ("Constants", PyValue.classObj),
   ("DerivedUnits", PyValue.classObj),
   ("Conversions", PyValue.classObj)]

/-- Embedding of the body of `beam_rigidity` run in a global namespace `env`:
the free name `_beam` is resolved in `env`; if unbound, the call raises
`NameError`; otherwise the 5-tuple result of `_beam.beam_rigidity(energy)` is
destructured as `brho, _, beta, gamma, _` and `(brho, beta, gamma)` is
returned. -/
def beam_rigidity (env : List (String × PyValue)) (energy : ℚ) :
    Except String (ℚ × ℚ × ℚ) :=
  match env.lookup "_beam" with
  | some (PyValue.beamMod f) =>
      let r := f energy
      Except.ok (r.1, r.2.2.1, r.2.2.2.1)
  | some _ => Except.error "AttributeError"
  | none => Except.error "NameError: name _beam is not defined"

/-- C6: each of the seven base-unit values exposed by `BaseUnits` (meter,
kilogram, second, ampere, kelvin, mole, candela) equals 1.0 exactly. -/
theorem baseUnits_all_equal_one :
    BaseUnits.meter = 1.0 ∧ BaseUnits.kilogram = 1.0 ∧ BaseUnits.second = 1.0 ∧
    BaseUnits.ampere = 1.0 ∧ BaseUnits.kelvin = 1.0 ∧ BaseUnits.mole = 1.0 ∧
    BaseUnits.candela = 1.0 := by
  refine ⟨rfl, rfl, rfl, rfl, rfl, rfl, rfl⟩

/-- C4: the derived constant `electron_rest_energy` is defined as exactly
`electron_mass * light_speed ** 2`; in the embedding the two expressions are
definitionally equal, so the equality is exact, not merely within
tolerance. -/
theorem electron_rest_energy_exact_formula :
    Constants.electron_rest_energy = Constants.electron_mass * Constants.light_speed ^ 2 :=
  rfl

/-- Helper: the value of `DerivedUnits.joule` is 1. -/
theorem joule_eq_one : DerivedUnits.joule = 1 := by
  norm_num [DerivedUnits.joule, DerivedUnits.newton, BaseUnits.kilogram, BaseUnits.meter,
    BaseUnits.second]

/-- Helper: the value of `DerivedUnits.volt` is 1. -/
theorem volt_eq_one : DerivedUnits.volt = 1 := by
  norm_num [DerivedUnits.volt, DerivedUnits.watt, joule_eq_one, BaseUnits.second,
    BaseUnits.ampere]

/-- Helper: the value of `Constants.elementary_charge`. -/
theorem elementary_charge_val : Constants.elementary_charge = 1.602176634e-19 := by
  norm_num [Constants.elementary_charge, Constants._coulomb, BaseUnits.second,
    BaseUnits.ampere]

/-- Helper: the value of `DerivedUnits.electron_volt`. -/
theorem electron_volt_val : DerivedUnits.electron_volt = 1.602176634e-19 := by
  norm_num [DerivedUnits.electron_volt, elementary_charge_val, volt_eq_one]

/-- C2: for each of the five reciprocal conversion pairs exposed by
`Conversions` (radian_2_degree/degree_2_radian, meter_2_mm/mm_2_meter,
eV_2_GeV/GeV_2_eV, rad_2_mrad/mrad_2_rad, joule_2_eV/ev_2_joule), the product
of the two factors equals 1 within 1e-12 relative tolerance; in the
exact-arithmetic model every product is exactly 1. -/
theorem conversions_reciprocal_pairs :
    |Conversions.radian_2_degree * Conversions.degree_2_radian - 1| ≤ 1e-12 ∧
    |Conversions.meter_2_mm * Conversions.mm_2_meter - 1| ≤ 1e-12 ∧
    |Conversions.eV_2_GeV * Conversions.GeV_2_eV - 1| ≤ 1e-12 ∧
    |Conversions.rad_2_mrad * Conversions.mrad_2_rad - 1| ≤ 1e-12 ∧
    |Conversions.joule_2_eV * Conversions.ev_2_joule - 1| ≤ 1e-12 := by
  have h1 : Conversions.radian_2_degree * Conversions.degree_2_radian = 1 := by
    rw [Conversions.radian_2_degree, Conversions.degree_2_radian, Np.pi]
    norm_num
  have h2 : Conversions.meter_2_mm * Conversions.mm_2_meter = 1 := by
    norm_num [Conversions.mm_2_meter, Conversions.meter_2_mm, DerivedUnits.mm,
      BaseUnits.meter]
  have h3 : Conversions.eV_2_GeV * Conversions.GeV_2_eV = 1 := by
    norm_num [Conversions.GeV_2_eV, Conversions.eV_2_GeV, DerivedUnits.eV,
      DerivedUnits.GeV, electron_volt_val]
  have h4 : Conversions.rad_2_mrad * Conversions.mrad_2_rad = 1 := by
    norm_num [Conversions.mrad_2_rad, Conversions.rad_2_mrad, DerivedUnits.rad,
      DerivedUnits.mrad]
  have h5 : Conversions.joule_2_eV * Conversions.ev_2_joule = 1 := by
    norm_num [Conversions.ev_2_joule, Conversions.joule_2_eV, joule_eq_one,
      electron_volt_val]
  refine ⟨?_, ?_, ?_, ?_, ?_⟩ <;>
    simp only [h1, h2, h3, h4, h5, sub_self, abs_zero] <;> norm_num

/-- C3: the product `vacuum_permitticity * vacuum_permeability *
light_speed ** 2` equals 1 within tolerance, `vacuum_permitticity` being
defined as the reciprocal of permeability times the squared speed of light;
in the exact-arithmetic model the product is exactly 1. -/
theorem permittivity_permeability_light_speed :
    |Constants.vacuum_permitticity * Constants.vacuum_permeability *
      Constants.light_speed ^ 2 - 1| ≤ 1e-12 := by
  have h : Constants.vacuum_permitticity * Constants.vacuum_permeability *
      Constants.light_speed ^ 2 = 1 := by
    norm_num [Constants.vacuum_permitticity, Constants.vacuum_permeability,
      Constants.light_speed, Constants._volt, Np.pow, BaseUnits.kilogram,
      BaseUnits.meter, BaseUnits.second, BaseUnits.ampere]
  simp only [h, sub_self, abs_zero]
  norm_num

/-- C5: the value `DerivedUnits.newton` equals the value of the composition
`BaseUnits.kilogram * BaseUnits.meter / BaseUnits.second ** 2`; both sides
evaluate to 1.0 (the source expression for `newton` divides by `second`
without the square, but every base-unit value is 1.0, so the values
coincide). -/
theorem newton_value_eq_kg_m_per_s2 :
    DerivedUnits.newton = BaseUnits.kilogram * BaseUnits.meter / BaseUnits.second ^ 2 := by
  norm_num [DerivedUnits.newton, BaseUnits.kilogram, BaseUnits.meter, BaseUnits.second]

/-- C7: `DerivedUnits.electron_volt` equals `Constants.elementary_charge`
multiplied by `DerivedUnits.volt`, and `DerivedUnits.GeV` equals
`electron_volt` multiplied by 1e9. -/
theorem electron_volt_and_GeV_formulas :
    DerivedUnits.electron_volt = Constants.elementary_charge * DerivedUnits.volt ∧
    DerivedUnits.GeV = DerivedUnits.electron_volt * 1e9 :=
  ⟨rfl, rfl⟩

/-- C8: the concrete values hold: `light_speed = 299792458.0`;
`radian_2_degree` is the value `180 / pi` and is within 1e-12 of
57.29577951308232; and the time units satisfy `minute = 60`, `hour = 3600`,
`day = 86400`, and `year = 365.25 * 86400 = 31557600.0`. -/
theorem concrete_constant_values :
    Constants.light_speed = 299792458.0 ∧
    Conversions.radian_2_degree = 180.0 / Np.pi ∧
    |Conversions.radian_2_degree - 57.29577951308232| ≤ 1e-12 ∧
    DerivedUnits.minute = 60 ∧
    DerivedUnits.hour = 3600 ∧
    DerivedUnits.day = 86400 ∧
    DerivedUnits.year = 365.25 * 86400 ∧
    DerivedUnits.year = 31557600.0 := by
  refine ⟨?_, rfl, ?_, rfl, ?_, ?_, ?_, ?_⟩
  · norm_num [Constants.light_speed, BaseUnits.meter, BaseUnits.second]
  · rw [Conversions.radian_2_degree, Np.pi, abs_le]
    constructor <;> norm_num
  · norm_num [DerivedUnits.hour]
  · norm_num [DerivedUnits.day]
  · norm_num [DerivedUnits.year]
  · norm_num [DerivedUnits.year]

/-- C10: the private factor `Constants._joule_2_eV` and the public factor
`Conversions.joule_2_eV` are exactly equal, and both equal
`1.0 / Constants.elementary_charge`. -/
theorem joule_2_eV_factors_coincide :
    Constants._joule_2_eV = Conversions.joule_2_eV ∧
    Constants._joule_2_eV = 1.0 / Constants.elementary_charge ∧
    Conversions.joule_2_eV = 1.0 / Constants.elementary_charge := by
  have hpriv : Constants._joule_2_eV = 1.0 / Constants.elementary_charge := by
    norm_num [Constants._joule_2_eV, Constants._joule, elementary_charge_val,
      BaseUnits.kilogram, BaseUnits.meter, BaseUnits.second]
  have hpub : Conversions.joule_2_eV = 1.0 / Constants.elementary_charge := by
    norm_num [Conversions.joule_2_eV, joule_eq_one, electron_volt_val,
      elementary_charge_val]
  exact ⟨hpriv.trans hpub.symm, hpriv, hpub⟩

/-- C9: the name `_beam` is bound by no statement of the module (the only
imported name is `_np`), so for every energy the call to `beam_rigidity` run
in the module's global namespace raises `NameError` instead of returning a
value. -/
theorem beam_rigidity_always_raises_nameError :
    moduleGlobals.lookup "_beam" = none ∧
    ∀ energy : ℚ, beam_rigidity moduleGlobals energy =
      Except.error "NameError: name _beam is not defined" :=
  ⟨rfl, fun _ => rfl⟩

/-- C1 (failing-input evaluation): at the representative energy 3.0 GeV the
call `beam_rigidity(3.0)` run in the module's global namespace raises
`NameError` rather than returning the triple extracted from the external
routine, because `_beam` is unbound. -/
theorem beam_rigidity_at_3_raises_nameError :
    beam_rigidity moduleGlobals 3 =
      Except.error "NameError: name _beam is not defined" :=
  rfl

end Pyacal
